import Mathlib

deriving instance DecidableEq for Except

/-
Verification of the hospital-administration CRUD backend
(specialty catalog, staff position assignment, staff contact
service, vacation-request service) against its specification.

The relational store is embedded as explicit record lists with
auto-increment counters; SQLAlchemy `query(...).filter(...).first()`
becomes `List.find?`, in-place ORM mutation plus commit becomes
first-match replacement in the row list, and `raise`d exceptions
become explicit error results.
-/

namespace Hospital

/-- Row of the `specialties` table (src/app/models.py and
src/Cr_StaffContactInformation/app/staff_contact_model.py: integer
primary key `id`, unique non-null `name`, nullable `description`,
server-assigned `created_at`). -/
structure Specialty where
  id : Nat
  name : String
  description : Option String
  created_at : Nat
deriving Repr, DecidableEq

/-- Row of the `departments` table
(src/Cr_StaffContactInformation/app/staff_contact_model.py: same shape
as Specialty). -/
structure Department where
  id : Nat
  name : String
  description : Option String
  created_at : Nat
deriving Repr, DecidableEq

/-- Row of the `staff` table
(src/Cr_StaffContactInformation/app/staff_contact_model.py): integer
primary key, names, unique email, nullable phone, start date, status,
nullable `role_level`, nullable foreign keys `department_id` and
`specialty_id`, server-assigned `created_at`.  Dates and timestamps are
abstracted to naturals. -/
structure Staff where
  id : Nat
  first_name : String
  last_name : String
  email : String
  phone_number : Option String
  start_date : Nat
  status : String
  role_level : Option String
  department_id : Option Nat
  specialty_id : Option Nat
  created_at : Nat
deriving Repr, DecidableEq

/-- The relational store: one list per table used by the verified
operations, the auto-increment counters for the tables the code
inserts into, and the clock that supplies the server-assigned
`created_at` (`func.now()`). -/
structure DB where
  specialties : List Specialty
  departments : List Department
  staffs : List Staff
  nextSpecialtyId : Nat
  nextStaffId : Nat
  now : Nat
deriving Repr, DecidableEq

/-- Body of a POST /specialties request (src/app/schemas.py,
`SpecialtyCreate`): required name, optional description. -/
structure SpecialtyCreate where
  name : String
  description : Option String
deriving Repr, DecidableEq

/-- Modelled from the spec: the `StaffPositionUpdate` request schema is
imported by src/app/crud.py from app.schemas but is absent from
src/app/schemas.py; spec section 4.2 gives its shape as
`(role_level, department_id, specialty_id?)`. -/
structure StaffPositionUpdate where
  role_level : String
  department_id : Nat
  specialty_id : Option Nat
deriving Repr, DecidableEq

/-- Body of a POST /api/staff request
(src/Cr_StaffContactInformation/app/staff_contact_schema.py,
`StaffCreate`): all position fields are required integers there. -/
structure StaffCreate where
  first_name : String
  last_name : String
  email : String
  phone_number : Option String
  start_date : Nat
  status : String
  role_level : String
  department_id : Nat
  specialty_id : Nat
deriving Repr, DecidableEq

/-- An HTTP error response raised by a handler: status code plus
detail message. -/
structure HTTPException where
  status_code : Nat
  detail : String
deriving Repr, DecidableEq

-- ===================================================================
-- src/app/crud.py - data-access layer
-- ===================================================================

/-- crud.get_all_specialties: `db.query(Specialty).all()` - every row
of the specialties table, in table order. -/
def get_all_specialties (db : DB) : List Specialty :=
  db.specialties

/-- The SQL LOWER() function produced by `func.lower`: each character
of the string is lowercased (ASCII case folding, as in SQLite). -/
def sqlLower (s : String) : String :=
  String.mk (s.data.map Char.toLower)

/-- crud.get_specialty_by_name:
`filter(func.lower(Specialty.name) == func.lower(name)).first()` -
first row whose name matches case-insensitively. -/
def get_specialty_by_name (db : DB) (name : String) : Option Specialty :=
  db.specialties.find? (fun s => sqlLower s.name == sqlLower name)

/-- crud.get_specialty: `filter(Specialty.id == specialty_id).first()`. -/
def get_specialty (db : DB) (specialty_id : Nat) : Option Specialty :=
  db.specialties.find? (fun s => s.id == specialty_id)

/-- crud.create_specialty: build the row from the payload, insert,
commit, refresh (the refresh populates the auto-increment `id` and the
server-default `created_at`); returns the new store and the refreshed
row. -/
def create_specialty (db : DB) (specialty : SpecialtyCreate) : DB × Specialty :=
  let db_specialty : Specialty :=
    { id := db.nextSpecialtyId
      name := specialty.name
      description := specialty.description
      created_at := db.now }
  ({ db with
      specialties := db.specialties ++ [db_specialty]
      nextSpecialtyId := db.nextSpecialtyId + 1 },
   db_specialty)

/-- Names of the functions actually defined at module level in
src/app/crud.py (read off its five `def` statements). -/
def crudModuleFunctions : List String :=
  ["get_all_specialties", "get_specialty_by_name", "get_specialty",
   "create_specialty", "assign_staff_position"]

-- ===================================================================
-- src/app/routers/specialties.py - specialty endpoints
-- ===================================================================

/-- Handler for POST /specialties: duplicate-name pre-check via
crud.get_specialty_by_name (raises 409 Conflict if it finds a row,
leaving the store untouched), then crud.create_specialty performs the
insert.  Result pairs the store after the call with the outcome. -/
def create_specialty_endpoint (db : DB) (specialty : SpecialtyCreate) :
    DB × Except HTTPException Specialty :=
  match get_specialty_by_name db specialty.name with
  | some _ =>
      (db, Except.error
        { status_code := 409
          detail := "A specialty with the name " ++ specialty.name ++ " already exists." })
  | none =>
      let r := create_specialty db specialty
      (r.1, Except.ok r.2)

/-- Outcome of GET /specialties: either a JSON list of rows, or the
uncaught exception from evaluating a missing module attribute. -/
inductive ListSpecialtiesOutcome where
  | ok (rows : List Specialty)
  | attributeError (missing : String)
deriving Repr, DecidableEq

/-- Handler for GET /specialties: the body is
`return crud.get_specialties(db=db, skip=skip, limit=limit)`.  The
handler first resolves the attribute `get_specialties` on the crud
module; only if that name is defined is the resolved list operation
applied (were the attribute present, its documented behaviour is the
offset/limit SELECT over the specialties table).  The `skip` and
`limit` arguments play no further role because attribute resolution
fails first. -/
def get_specialties_endpoint (db : DB) (skip limit : Nat) : ListSpecialtiesOutcome :=
  if crudModuleFunctions.contains "get_specialties" then
    ListSpecialtiesOutcome.ok ((get_all_specialties db).drop skip |>.take limit)
  else
    ListSpecialtiesOutcome.attributeError "get_specialties"

/-- Handler for GET /specialties/(specialty_id): crud.get_specialty,
404 when it returns None. -/
def get_specialty_endpoint (db : DB) (specialty_id : Nat) :
    Except HTTPException Specialty :=
  match get_specialty db specialty_id with
  | none =>
      Except.error
        { status_code := 404
          detail := "Specialty with id=" ++ toString specialty_id ++ " not found." }
  | some s => Except.ok s

-- ===================================================================
-- src/app/crud.py - assign_staff_position (END-27)
-- ===================================================================

/-- Result of crud.assign_staff_position, with the store it leaves
behind: the function returns None when the staff id matches no row,
raises ValueError when the referenced department (or supplied
specialty) does not exist, and otherwise mutates the three position
fields of the fetched row, commits, refreshes, and returns the row. -/
inductive AssignResult where
  | staffNotFound (db : DB)
  | valueError (db : DB) (msg : String)
  | ok (db : DB) (staff : Staff)
deriving Repr, DecidableEq

/-- The store in which a call to assign_staff_position ended. -/
def AssignResult.store : AssignResult → DB
  | AssignResult.staffNotFound db => db
  | AssignResult.valueError db _ => db
  | AssignResult.ok db _ => db

/-- In-place mutation of the ORM object returned by
`query(Staff).filter(Staff.id == staff_id).first()` followed by
commit: the first row with the given id is replaced, every other row
is untouched. -/
def updateFirstStaff (staffs : List Staff) (staff_id : Nat) (f : Staff → Staff) :
    List Staff :=
  match staffs with
  | [] => []
  | s :: rest =>
      if s.id == staff_id then f s :: rest
      else s :: updateFirstStaff rest staff_id f

/-- Steps 4 to 6 of crud.assign_staff_position once every validation
passed: the three fields role_level, department_id, specialty_id of
the fetched row are written unconditionally, the change is committed,
and the refreshed row is returned. -/
def commitPosition (db : DB) (staff_id : Nat) (db_staff : Staff)
    (position_data : StaffPositionUpdate) : AssignResult :=
  let updated : Staff :=
    { db_staff with
        role_level := some position_data.role_level
        department_id := some position_data.department_id
        specialty_id := position_data.specialty_id }
  AssignResult.ok
    { db with staffs := updateFirstStaff db.staffs staff_id (fun _ => updated) }
    updated

/-- crud.assign_staff_position: validation A fetches the staff row by
id (None if absent); validation B requires the department id to exist
(ValueError otherwise); validation C, only when a specialty id was
sent, requires it to exist (ValueError otherwise); then the update is
committed (commitPosition). -/
def assign_staff_position (db : DB) (staff_id : Nat)
    (position_data : StaffPositionUpdate) : AssignResult :=
  match db.staffs.find? (fun s => s.id == staff_id) with
  | none => AssignResult.staffNotFound db
  | some db_staff =>
    match db.departments.find? (fun d => d.id == position_data.department_id) with
    | none =>
        AssignResult.valueError db
          ("Error: El departamento con ID " ++ toString position_data.department_id ++
           " no existe en el hospital.")
    | some _ =>
      match position_data.specialty_id with
      | some sid =>
        match db.specialties.find? (fun s => s.id == sid) with
        | none =>
            AssignResult.valueError db
              ("Error: La especialidad con ID " ++ toString sid ++ " no existe.")
        | some _ => commitPosition db staff_id db_staff position_data
      | none => commitPosition db staff_id db_staff position_data

-- ===================================================================
-- src/app/routers/staff.py - PATCH /staff/(staff_id)/position
-- ===================================================================

/-- Handler assign_position: calls crud.assign_staff_position inside a
try block; a None result becomes HTTP 404 (staff missing); a
ValueError raised by the crud layer is caught and re-raised as HTTP
400 with the same message.  Result pairs the store after the call with
the outcome. -/
def assign_position (db : DB) (staff_id : Nat)
    (position_data : StaffPositionUpdate) :
    DB × Except HTTPException Staff :=
  match assign_staff_position db staff_id position_data with
  | AssignResult.staffNotFound db1 =>
      (db1, Except.error
        { status_code := 404
          detail := "Error: El empleado con ID " ++ toString staff_id ++
                    " no existe en el sistema." })
  | AssignResult.valueError db1 msg =>
      (db1, Except.error { status_code := 400, detail := msg })
  | AssignResult.ok db1 st => (db1, Except.ok st)

-- ===================================================================
-- src/Cr_StaffContactInformation/app/staff_contact_service.py
-- ===================================================================

/-- Result of the staff-contact create_staff service, with the store
it leaves behind. -/
inductive CreateStaffResult where
  | error (db : DB) (e : HTTPException)
  | created (db : DB) (staff : Staff)
deriving Repr, DecidableEq

/-- The store in which a call to create_staff ended. -/
def CreateStaffResult.store : CreateStaffResult → DB
  | CreateStaffResult.error db _ => db
  | CreateStaffResult.created db _ => db

/-- staff_contact_service.create_staff: the only business validation
is email uniqueness - `filter(Staff.email == staff_data.email).first()`
and HTTP 400 "Email already registered" on a hit; otherwise the row is
built from the payload (no department or specialty lookup is
performed), added, committed, and refreshed. -/
def create_staff (db : DB) (staff_data : StaffCreate) : CreateStaffResult :=
  match db.staffs.find? (fun s => s.email == staff_data.email) with
  | some _ =>
      CreateStaffResult.error db
        { status_code := 400, detail := "Email already registered" }
  | none =>
      let new_staff : Staff :=
        { id := db.nextStaffId
          first_name := staff_data.first_name
          last_name := staff_data.last_name
          email := staff_data.email
          phone_number := staff_data.phone_number
          start_date := staff_data.start_date
          status := staff_data.status
          role_level := some staff_data.role_level
          department_id := some staff_data.department_id
          specialty_id := some staff_data.specialty_id
          created_at := db.now }
      CreateStaffResult.created
        { db with
            staffs := db.staffs ++ [new_staff]
            nextStaffId := db.nextStaffId + 1 }
        new_staff

/-- staff_contact_service.get_staff: fetch by id, HTTP 404 "Staff not
found" when absent. -/
def get_staff (db : DB) (staff_id : Nat) : Except HTTPException Staff :=
  match db.staffs.find? (fun s => s.id == staff_id) with
  | none => Except.error { status_code := 404, detail := "Staff not found" }
  | some staff => Except.ok staff

-- ===================================================================
-- src/request-vacation/main.py - in-memory vacation-request service
-- ===================================================================

/-- Element of the module-level `posts` list in
src/request-vacation/main.py (the fields beyond `id` play no role in
the lookup; the initial entries carry name and description). -/
structure Post where
  id : Nat
  name : String
  description : String
deriving Repr, DecidableEq

/-- The module-level initial `posts` list. -/
def posts : List Post :=
  [{ id := 1, name := "JavaScript", description := "JS is awesome" },
   { id := 2, name := "Python", description := "build fast APIs with Python" }]

/-- Outcome of GET /api/post/(post_id): a post, the HTTP 404 raised
inside the loop, or the implicit Python None when the list is empty
and the loop body never runs. -/
inductive PostLookup where
  | found (p : Post)
  | notFound
  | noneReturn
deriving Repr, DecidableEq

/-- Handler get_posts(post_id): `for post in posts:` with both the
successful `return post` and the `raise HTTPException(404)` inside the
loop body, so the first iteration either returns the first element (on
an id match) or raises; later elements are never examined; with an
empty list the function falls through and returns None. -/
def get_post_by_id (stored : List Post) (post_id : Nat) : PostLookup :=
  match stored with
  | [] => PostLookup.noneReturn
  | post :: _ =>
      if post.id == post_id then PostLookup.found post
      else PostLookup.notFound

-- ===================================================================
-- Concrete stores used to exercise the operations
-- ===================================================================

/-- An empty store, as each test run starts with
(src/tests/test_specialties.py creates all tables fresh). -/
def dbEmpty : DB :=
  { specialties := [], departments := [], staffs := []
    nextSpecialtyId := 1, nextStaffId := 1, now := 0 }

/-- A store holding the single specialty Cardiology (the repository
test fixture name). -/
def db_cardiology : DB :=
  { specialties := [{ id := 1, name := "Cardiology", description := none, created_at := 0 }]
    departments := []
    staffs := []
    nextSpecialtyId := 2
    nextStaffId := 1
    now := 1 }

/-- A staff row as created by the repository test fixture
(test_staff.py), holding a department and a specialty. -/
def staffAna : Staff :=
  { id := 1, first_name := "Ana", last_name := "Lopez", email := "ana.lopez@test.com"
    phone_number := some "12345678", start_date := 1, status := "Active"
    role_level := some "Junior", department_id := some 2, specialty_id := some 5
    created_at := 0 }

/-- The row staffAna after a position update to Senior in department 2
with specialty 5. -/
def staffAnaPromoted : Staff :=
  { staffAna with
      role_level := some "Senior"
      department_id := some 2
      specialty_id := some 5 }

/-- The row staffAna after a position update that omits the specialty. -/
def staffAnaCleared : Staff :=
  { staffAna with
      role_level := some "Senior"
      department_id := some 2
      specialty_id := none }

/-- A store holding one department, one specialty and the staff row
staffAna. -/
def dbStaff : DB :=
  { specialties := [{ id := 5, name := "Cardiologist", description := some "Heart specialist", created_at := 0 }]
    departments := [{ id := 2, name := "Cardiology", description := some "Heart department", created_at := 0 }]
    staffs := [staffAna]
    nextSpecialtyId := 6
    nextStaffId := 2
    now := 3 }

/-- A store with no departments and no specialties at all. -/
def dbNoRefs : DB :=
  { specialties := [], departments := [], staffs := []
    nextSpecialtyId := 1, nextStaffId := 1, now := 0 }

/-- A staff-create payload whose department_id and specialty_id match
no row of dbNoRefs. -/
def danglingPayload : StaffCreate :=
  { first_name := "Ana", last_name := "Lopez", email := "ana.lopez@test.com"
    phone_number := some "12345678", start_date := 1, status := "Active"
    role_level := "Senior", department_id := 999, specialty_id := 888 }

/-- The row create_staff builds from danglingPayload in dbNoRefs. -/
def danglingRow : Staff :=
  { id := 1, first_name := "Ana", last_name := "Lopez", email := "ana.lopez@test.com"
    phone_number := some "12345678", start_date := 1, status := "Active"
    role_level := some "Senior", department_id := some 999, specialty_id := some 888
    created_at := 0 }

-- ===================================================================
-- Helper lemmas on the data-access layer
-- ===================================================================

/-- Validation A fails: no staff row has the requested id. -/
theorem assign_staff_none (db : DB) (sid : Nat) (p : StaffPositionUpdate)
    (h : db.staffs.find? (fun s => s.id == sid) = none) :
    assign_staff_position db sid p = AssignResult.staffNotFound db := by
  unfold assign_staff_position
  rw [h]

/-- Validation B fails: the staff row exists but the department id
matches no department. -/
theorem assign_dept_none (db : DB) (sid : Nat) (p : StaffPositionUpdate) (st : Staff)
    (h1 : db.staffs.find? (fun s => s.id == sid) = some st)
    (h2 : db.departments.find? (fun d => d.id == p.department_id) = none) :
    assign_staff_position db sid p =
      AssignResult.valueError db
        ("Error: El departamento con ID " ++ toString p.department_id ++
         " no existe en el hospital.") := by
  unfold assign_staff_position
  rw [h1, h2]

/-- Validation C fails: a specialty id was sent and matches no
specialty. -/
theorem assign_spec_none (db : DB) (sid : Nat) (p : StaffPositionUpdate)
    (st : Staff) (d : Department) (sid2 : Nat)
    (h1 : db.staffs.find? (fun s => s.id == sid) = some st)
    (h2 : db.departments.find? (fun d => d.id == p.department_id) = some d)
    (h3 : p.specialty_id = some sid2)
    (h4 : db.specialties.find? (fun s => s.id == sid2) = none) :
    assign_staff_position db sid p =
      AssignResult.valueError db
        ("Error: La especialidad con ID " ++ toString sid2 ++ " no existe.") := by
  unfold assign_staff_position
  simp only [h1, h2, h3, h4]

/-- All validations pass: the update is committed on the fetched row. -/
theorem assign_ok (db : DB) (sid : Nat) (p : StaffPositionUpdate) (st : Staff)
    (h1 : db.staffs.find? (fun s => s.id == sid) = some st)
    (h2 : (db.departments.find? (fun d => d.id == p.department_id)).isSome)
    (h3 : ∀ sid2, p.specialty_id = some sid2 →
      (db.specialties.find? (fun s => s.id == sid2)).isSome) :
    assign_staff_position db sid p = commitPosition db sid st p := by
  unfold assign_staff_position
  simp only [h1]
  obtain ⟨d, hd⟩ := Option.isSome_iff_exists.mp h2
  simp only [hd]
  cases hsp : p.specialty_id with
  | none => rfl
  | some sid2 =>
      obtain ⟨sp, hsp2⟩ := Option.isSome_iff_exists.mp (h3 sid2 hsp)
      simp only [hsp2]

/-- List.find? over an append whose first part has no hit searches the
second part. -/
theorem find?_append_none {α : Type} (p : α → Bool) (l1 l2 : List α)
    (h : l1.find? p = none) : (l1 ++ l2).find? p = l2.find? p := by
  induction l1 with
  | nil => rfl
  | cons a t ih =>
      rw [List.find?_cons] at h
      rw [List.cons_append, List.find?_cons]
      cases hpa : p a with
      | true => rw [hpa] at h; exact absurd h (by simp)
      | false =>
          rw [hpa] at h
          rw [ih h]

/-- The POST /specialties payload used by the round-trip property. -/
def cardiologyPayload : SpecialtyCreate :=
  { name := "Cardiology", description := none }

-- ===================================================================
-- Claim theorems
-- ===================================================================

/-- C2: the list-specialties route cannot return an ordered possibly
empty sequence for any skip and limit, because its body calls
crud.get_specialties, a name src/app/crud.py never defines; already on
skip=0, limit=100 over the empty specialties table the attribute
lookup fails instead of producing the empty list the spec and the
repository test expect. -/
theorem list_specialties_router_attribute_error :
    "get_specialties" ∉ crudModuleFunctions ∧
    get_specialties_endpoint dbEmpty 0 100 =
      ListSpecialtiesOutcome.attributeError "get_specialties" :=
  ⟨by decide, by decide⟩

/-- C4 counterexample: the create-specialty pre-check of the base path
is case-insensitive, not case-sensitive.  The request name CARDIOLOGY
differs from every stored name as an exact string, yet the request is
rejected as a 409 conflict and no row is created. -/
theorem create_specialty_case_sensitivity_counterexample :
    ("CARDIOLOGY" : String) ≠ "Cardiology" ∧
    (∀ s ∈ db_cardiology.specialties, s.name ≠ "CARDIOLOGY") ∧
    create_specialty_endpoint db_cardiology { name := "CARDIOLOGY", description := none } =
      (db_cardiology,
       Except.error
         { status_code := 409
           detail := "A specialty with the name CARDIOLOGY already exists." }) :=
  ⟨by decide, by decide, by decide⟩

/-- C4 amended: in the base path the create-specialty duplicate
pre-check compares names case-insensitively: the request is rejected
as a 409 conflict exactly when some existing specialty name equals the
requested name after SQL LOWER() on both sides (so exact-match
duplicates are rejected, and so are names that differ only in letter
case). -/
theorem create_specialty_conflict_iff_case_insensitive_match
    (db : DB) (p : SpecialtyCreate) :
    (∃ e, (create_specialty_endpoint db p).2 = Except.error e ∧ e.status_code = 409) ↔
      ∃ s ∈ db.specialties, sqlLower s.name = sqlLower p.name := by
  unfold create_specialty_endpoint
  cases hf : get_specialty_by_name db p.name with
  | some s =>
      constructor
      · intro _
        exact ⟨s, List.mem_of_find?_eq_some hf, by simpa using List.find?_some hf⟩
      · intro _
        exact ⟨_, rfl, rfl⟩
  | none =>
      constructor
      · rintro ⟨e, he, _⟩
        simp at he
      · rintro ⟨s, hs, hname⟩
        have hmiss := List.find?_eq_none.mp hf s hs
        simp [hname] at hmiss

/-- Witness for C4 amended: the iff instantiated on the store holding
Cardiology and the request name CARDIOLOGY. -/
theorem create_specialty_conflict_iff_case_insensitive_match_witness :
    (∃ e, (create_specialty_endpoint db_cardiology
        { name := "CARDIOLOGY", description := none }).2 = Except.error e ∧
      e.status_code = 409) ↔
      ∃ s ∈ db_cardiology.specialties, sqlLower s.name = sqlLower "CARDIOLOGY" :=
  create_specialty_conflict_iff_case_insensitive_match db_cardiology
    { name := "CARDIOLOGY", description := none }

/-- C7: a create-specialty request whose name already exists is
rejected as a 409 conflict by the application-level pre-check, and the
store after the call is exactly the store before it - no new row is
inserted, the pre-check having run before the insert. -/
theorem create_specialty_precheck_blocks_duplicate (db : DB) (p : SpecialtyCreate)
    (hdup : ∃ s ∈ db.specialties, s.name = p.name) :
    (create_specialty_endpoint db p).1 = db ∧
    ∃ e, (create_specialty_endpoint db p).2 = Except.error e ∧ e.status_code = 409 := by
  obtain ⟨s, hs, hname⟩ := hdup
  have hsome : (get_specialty_by_name db p.name).isSome := by
    unfold get_specialty_by_name
    exact List.find?_isSome.mpr ⟨s, hs, by simp [hname]⟩
  obtain ⟨s0, hf⟩ := Option.isSome_iff_exists.mp hsome
  unfold create_specialty_endpoint
  rw [hf]
  exact ⟨rfl, ⟨_, rfl, rfl⟩⟩

/-- Witness for C7: recreating Cardiology in the store that already
holds it leaves the store unchanged and yields a 409. -/
theorem create_specialty_precheck_blocks_duplicate_witness :
    (create_specialty_endpoint db_cardiology
        { name := "Cardiology", description := some "Heart stuff" }).1 = db_cardiology ∧
    ∃ e, (create_specialty_endpoint db_cardiology
        { name := "Cardiology", description := some "Heart stuff" }).2 = Except.error e ∧
      e.status_code = 409 :=
  create_specialty_precheck_blocks_duplicate db_cardiology
    { name := "Cardiology", description := some "Heart stuff" }
    ⟨({ id := 1, name := "Cardiology", description := none, created_at := 0 } : Specialty),
     by decide, rfl⟩

/-- C8: creating a Specialty named Cardiology with no description and
fetching the created record by its id returns a record whose name is
Cardiology and whose description is null, in any store whose
auto-increment counter is fresh. -/
theorem create_cardiology_then_get_roundtrip (db : DB)
    (hfresh : ∀ s ∈ db.specialties, s.id ≠ db.nextSpecialtyId) :
    get_specialty (create_specialty db cardiologyPayload).1
        (create_specialty db cardiologyPayload).2.id =
      some (create_specialty db cardiologyPayload).2 ∧
    (create_specialty db cardiologyPayload).2.name = "Cardiology" ∧
    (create_specialty db cardiologyPayload).2.description = none := by
  refine ⟨?_, rfl, rfl⟩
  show (db.specialties ++
      [({ id := db.nextSpecialtyId, name := "Cardiology", description := none,
          created_at := db.now } : Specialty)]).find?
        (fun s => s.id == db.nextSpecialtyId) =
    some ({ id := db.nextSpecialtyId, name := "Cardiology", description := none,
            created_at := db.now } : Specialty)
  rw [find?_append_none _ _ _
    (List.find?_eq_none.mpr (fun s hs => by simpa using hfresh s hs))]
  simp [List.find?]

/-- Witness for C8: the round-trip on the empty store. -/
theorem create_cardiology_then_get_roundtrip_witness :
    get_specialty (create_specialty dbEmpty cardiologyPayload).1
        (create_specialty dbEmpty cardiologyPayload).2.id =
      some (create_specialty dbEmpty cardiologyPayload).2 ∧
    (create_specialty dbEmpty cardiologyPayload).2.name = "Cardiology" ∧
    (create_specialty dbEmpty cardiologyPayload).2.description = none :=
  create_cardiology_then_get_roundtrip dbEmpty (by decide)

/-- C1: the PATCH /staff position endpoint signals not-found (404)
when no Staff row has the requested id; a validation error (400) when
the department id references no Department, or when a specialty id is
supplied and references no Specialty - both leaving the store
untouched; and otherwise updates exactly the three fields role_level,
department_id, specialty_id of the target row and returns the
refreshed row, 404 and 400 being two different status codes. -/
theorem assign_position_full_spec (db : DB) (sid : Nat) (p : StaffPositionUpdate) :
    ((∀ s ∈ db.staffs, s.id ≠ sid) →
      assign_position db sid p =
        (db, Except.error
          { status_code := 404
            detail := "Error: El empleado con ID " ++ toString sid ++
                      " no existe en el sistema." }))
  ∧ ((∃ s ∈ db.staffs, s.id = sid) →
      (∀ d ∈ db.departments, d.id ≠ p.department_id) →
      assign_position db sid p =
        (db, Except.error
          { status_code := 400
            detail := "Error: El departamento con ID " ++ toString p.department_id ++
                      " no existe en el hospital." }))
  ∧ ((∃ s ∈ db.staffs, s.id = sid) →
      (∃ d ∈ db.departments, d.id = p.department_id) →
      ∀ sid2, p.specialty_id = some sid2 →
      (∀ sp ∈ db.specialties, sp.id ≠ sid2) →
      assign_position db sid p =
        (db, Except.error
          { status_code := 400
            detail := "Error: La especialidad con ID " ++ toString sid2 ++
                      " no existe." }))
  ∧ (∀ st, db.staffs.find? (fun s => s.id == sid) = some st →
      (∃ d ∈ db.departments, d.id = p.department_id) →
      (∀ sid2, p.specialty_id = some sid2 → ∃ sp ∈ db.specialties, sp.id = sid2) →
      assign_position db sid p =
        ({ db with
             staffs := updateFirstStaff db.staffs sid (fun _ =>
               { st with
                   role_level := some p.role_level
                   department_id := some p.department_id
                   specialty_id := p.specialty_id }) },
         Except.ok
           { st with
               role_level := some p.role_level
               department_id := some p.department_id
               specialty_id := p.specialty_id }))
  ∧ (404 : Nat) ≠ 400 := by
  refine ⟨?_, ?_, ?_, ?_, by decide⟩
  · intro hnone
    have hf : db.staffs.find? (fun s => s.id == sid) = none :=
      List.find?_eq_none.mpr (fun s hs => by simpa using hnone s hs)
    unfold assign_position
    rw [assign_staff_none db sid p hf]
  · intro hstaff hdept
    have hfs : (db.staffs.find? (fun s => s.id == sid)).isSome :=
      List.find?_isSome.mpr
        (by obtain ⟨s, hs, hid⟩ := hstaff; exact ⟨s, hs, by simp [hid]⟩)
    obtain ⟨st, hf⟩ := Option.isSome_iff_exists.mp hfs
    have hd : db.departments.find? (fun d => d.id == p.department_id) = none :=
      List.find?_eq_none.mpr (fun d hd2 => by simpa using hdept d hd2)
    unfold assign_position
    rw [assign_dept_none db sid p st hf hd]
  · intro hstaff hdeptEx sid2 hsid2 hspecNone
    have hfs : (db.staffs.find? (fun s => s.id == sid)).isSome :=
      List.find?_isSome.mpr
        (by obtain ⟨s, hs, hid⟩ := hstaff; exact ⟨s, hs, by simp [hid]⟩)
    obtain ⟨st, hf⟩ := Option.isSome_iff_exists.mp hfs
    have hfdS : (db.departments.find? (fun d => d.id == p.department_id)).isSome :=
      List.find?_isSome.mpr
        (by obtain ⟨d, hd2, hid⟩ := hdeptEx; exact ⟨d, hd2, by simp [hid]⟩)
    obtain ⟨d, hfd⟩ := Option.isSome_iff_exists.mp hfdS
    have hsp : db.specialties.find? (fun s => s.id == sid2) = none :=
      List.find?_eq_none.mpr (fun sp hsp2 => by simpa using hspecNone sp hsp2)
    unfold assign_position
    rw [assign_spec_none db sid p st d sid2 hf hfd hsid2 hsp]
  · intro st hf hdeptEx hspecEx
    have hd : (db.departments.find? (fun d => d.id == p.department_id)).isSome :=
      List.find?_isSome.mpr
        (by obtain ⟨d, hd2, hid⟩ := hdeptEx; exact ⟨d, hd2, by simp [hid]⟩)
    have hs : ∀ sid2, p.specialty_id = some sid2 →
        (db.specialties.find? (fun s => s.id == sid2)).isSome :=
      fun sid2 h => List.find?_isSome.mpr
        (by obtain ⟨sp, hsp2, hid⟩ := hspecEx sid2 h; exact ⟨sp, hsp2, by simp [hid]⟩)
    unfold assign_position
    rw [assign_ok db sid p st hf hd hs]
    exact rfl

/-- Witness for C1: promoting staff 1 of dbStaff to Senior in
department 2 with specialty 5 succeeds and stores the refreshed row. -/
theorem assign_position_full_spec_witness :
    assign_position dbStaff 1
        { role_level := "Senior", department_id := 2, specialty_id := some 5 } =
      ({ dbStaff with staffs := updateFirstStaff dbStaff.staffs 1 (fun _ => staffAnaPromoted) },
       Except.ok staffAnaPromoted) :=
  (assign_position_full_spec dbStaff 1
      { role_level := "Senior", department_id := 2, specialty_id := some 5 }).2.2.2.1
    staffAna (by decide) (by decide)
    (fun sid2 h => by injection h with h2; subst h2; decide)

/-- C5: a failing position update leaves the store untouched - a
missing staff id yields not-found with the input store carried over
unchanged, and a missing department yields a validation error with the
input store carried over unchanged, so the target row keeps all its
field values. -/
theorem assign_failure_leaves_store_unchanged (db : DB) (sid : Nat)
    (p : StaffPositionUpdate) :
    ((∀ s ∈ db.staffs, s.id ≠ sid) →
      assign_staff_position db sid p = AssignResult.staffNotFound db)
  ∧ ((∃ s ∈ db.staffs, s.id = sid) →
      (∀ d ∈ db.departments, d.id ≠ p.department_id) →
      ∃ msg, assign_staff_position db sid p = AssignResult.valueError db msg) := by
  constructor
  · intro hnone
    exact assign_staff_none db sid p
      (List.find?_eq_none.mpr (fun s hs => by simpa using hnone s hs))
  · intro hstaff hdept
    have hfs : (db.staffs.find? (fun s => s.id == sid)).isSome :=
      List.find?_isSome.mpr
        (by obtain ⟨s, hs, hid⟩ := hstaff; exact ⟨s, hs, by simp [hid]⟩)
    obtain ⟨st, hf⟩ := Option.isSome_iff_exists.mp hfs
    exact ⟨_, assign_dept_none db sid p st hf
      (List.find?_eq_none.mpr (fun d hd => by simpa using hdept d hd))⟩

/-- Witness for C5: both failure shapes on dbStaff - unknown staff 99,
then staff 1 with unknown department 77. -/
theorem assign_failure_leaves_store_unchanged_witness :
    assign_staff_position dbStaff 99
        { role_level := "Senior", department_id := 2, specialty_id := none } =
      AssignResult.staffNotFound dbStaff ∧
    ∃ msg, assign_staff_position dbStaff 1
        { role_level := "Senior", department_id := 77, specialty_id := none } =
      AssignResult.valueError dbStaff msg :=
  ⟨(assign_failure_leaves_store_unchanged dbStaff 99
      { role_level := "Senior", department_id := 2, specialty_id := none }).1 (by decide),
   (assign_failure_leaves_store_unchanged dbStaff 1
      { role_level := "Senior", department_id := 77, specialty_id := none }).2
     (by decide) (by decide)⟩

/-- C9: a successful position update whose payload omits the specialty
(specialty_id is None) overwrites the target row's specialty_id to
null - the write is unconditional even though the existence check was
skipped - and the row stored for the target id is that cleared row. -/
theorem assign_omitted_specialty_overwrites_null (db : DB) (sid : Nat)
    (p : StaffPositionUpdate) (db1 : DB) (st : Staff)
    (hnone : p.specialty_id = none)
    (hok : assign_staff_position db sid p = AssignResult.ok db1 st) :
    st.specialty_id = none ∧
    db1.staffs = updateFirstStaff db.staffs sid (fun _ => st) := by
  cases hfs : db.staffs.find? (fun s => s.id == sid) with
  | none =>
      rw [assign_staff_none db sid p hfs] at hok
      exact AssignResult.noConfusion hok
  | some st0 =>
      cases hfd : db.departments.find? (fun d => d.id == p.department_id) with
      | none =>
          rw [assign_dept_none db sid p st0 hfs hfd] at hok
          exact AssignResult.noConfusion hok
      | some d =>
          have hcommit := assign_ok db sid p st0 hfs (by rw [hfd]; rfl)
            (fun sid2 h => absurd (hnone ▸ h) (by simp))
          rw [hcommit] at hok
          unfold commitPosition at hok
          injection hok with h1 h2
          subst h1
          subst h2
          exact ⟨hnone, rfl⟩

/-- Witness for C9: staff 1 of dbStaff held specialty 5; the update
omitting the specialty stores the row with specialty_id cleared. -/
theorem assign_omitted_specialty_overwrites_null_witness :
    staffAnaCleared.specialty_id = none ∧
    ({ dbStaff with
        staffs := updateFirstStaff dbStaff.staffs 1 (fun _ => staffAnaCleared) }).staffs =
      updateFirstStaff dbStaff.staffs 1 (fun _ => staffAnaCleared) :=
  assign_omitted_specialty_overwrites_null dbStaff 1
    { role_level := "Senior", department_id := 2, specialty_id := none }
    { dbStaff with
        staffs := updateFirstStaff dbStaff.staffs 1 (fun _ => staffAnaCleared) }
    staffAnaCleared rfl (by decide)

/-- C3 counterexample: staff creation performs no referential check -
in a store with no Department and no Specialty rows at all, create_staff
persists a row whose department_id is 999 and specialty_id is 888. -/
theorem create_staff_dangling_reference_counterexample :
    create_staff dbNoRefs danglingPayload =
      CreateStaffResult.created
        { dbNoRefs with staffs := [danglingRow], nextStaffId := 2 } danglingRow ∧
    danglingRow.department_id = some 999 ∧
    danglingRow.specialty_id = some 888 ∧
    ({ dbNoRefs with staffs := [danglingRow], nextStaffId := 2 } : DB).departments = [] ∧
    ({ dbNoRefs with staffs := [danglingRow], nextStaffId := 2 } : DB).specialties = [] :=
  ⟨by decide, by decide, by decide, by decide, by decide⟩

/-- C3 amended: only the position update guarantees, at the moment of
the write, that department_id references an existing Department and a
supplied specialty_id an existing Specialty; staff creation checks
only email uniqueness and persists the payload's department_id and
specialty_id unconditionally. -/
theorem referential_check_on_update_only :
    (∀ db sid p db1 st, assign_staff_position db sid p = AssignResult.ok db1 st →
        (∃ d ∈ db.departments, d.id = p.department_id) ∧
        (∀ sid2, p.specialty_id = some sid2 → ∃ sp ∈ db.specialties, sp.id = sid2))
  ∧ (∀ db payload, (∀ s ∈ db.staffs, s.email ≠ payload.email) →
        ∃ db1 row, create_staff db payload = CreateStaffResult.created db1 row ∧
          row.department_id = some payload.department_id ∧
          row.specialty_id = some payload.specialty_id) := by
  constructor
  · intro db sid p db1 st hok
    cases hfs : db.staffs.find? (fun s => s.id == sid) with
    | none =>
        rw [assign_staff_none db sid p hfs] at hok
        exact AssignResult.noConfusion hok
    | some st0 =>
        cases hfd : db.departments.find? (fun d => d.id == p.department_id) with
        | none =>
            rw [assign_dept_none db sid p st0 hfs hfd] at hok
            exact AssignResult.noConfusion hok
        | some d =>
            refine ⟨⟨d, List.mem_of_find?_eq_some hfd, by simpa using List.find?_some hfd⟩, ?_⟩
            intro sid2 hsid2
            cases hsp : db.specialties.find? (fun s => s.id == sid2) with
            | none =>
                rw [assign_spec_none db sid p st0 d sid2 hfs hfd hsid2 hsp] at hok
                exact AssignResult.noConfusion hok
            | some sp =>
                exact ⟨sp, List.mem_of_find?_eq_some hsp, by simpa using List.find?_some hsp⟩
  · intro db payload hfresh
    have hf : db.staffs.find? (fun s => s.email == payload.email) = none :=
      List.find?_eq_none.mpr (fun s hs => by simpa using hfresh s hs)
    unfold create_staff
    rw [hf]
    exact ⟨_, _, rfl, rfl, rfl⟩

/-- Witness for C3 amended: the successful update on dbStaff had its
references present, and the dangling creation on dbNoRefs goes
through. -/
theorem referential_check_on_update_only_witness :
    ((∃ d ∈ dbStaff.departments, d.id = 2) ∧
      (∀ sid2, (some 5 : Option Nat) = some sid2 →
        ∃ sp ∈ dbStaff.specialties, sp.id = sid2)) ∧
    (∃ db1 row, create_staff dbNoRefs danglingPayload =
        CreateStaffResult.created db1 row ∧
      row.department_id = some danglingPayload.department_id ∧
      row.specialty_id = some danglingPayload.specialty_id) :=
  ⟨referential_check_on_update_only.1 dbStaff 1
      { role_level := "Senior", department_id := 2, specialty_id := some 5 }
      { dbStaff with
          staffs := updateFirstStaff dbStaff.staffs 1 (fun _ => staffAnaPromoted) }
      staffAnaPromoted (by decide),
   referential_check_on_update_only.2 dbNoRefs danglingPayload (by decide)⟩

/-- C6: a staff-create whose email equals the email of a persisted
Staff row is rejected (the duplicate-email error) and the store after
the call is exactly the store before it - no new row is persisted. -/
theorem create_staff_duplicate_email_rejected (db : DB) (payload : StaffCreate)
    (hdup : ∃ s ∈ db.staffs, s.email = payload.email) :
    create_staff db payload =
      CreateStaffResult.error db
        { status_code := 400, detail := "Email already registered" } := by
  obtain ⟨s, hs, hmail⟩ := hdup
  have hfs : (db.staffs.find? (fun s => s.email == payload.email)).isSome :=
    List.find?_isSome.mpr ⟨s, hs, by simp [hmail]⟩
  obtain ⟨s0, hf⟩ := Option.isSome_iff_exists.mp hfs
  unfold create_staff
  rw [hf]

/-- A second create payload reusing the email of staffAna. -/
def anaDuplicatePayload : StaffCreate :=
  { first_name := "Maria", last_name := "Diaz", email := "ana.lopez@test.com"
    phone_number := none, start_date := 2, status := "Active"
    role_level := "Junior", department_id := 2, specialty_id := 5 }

/-- Witness for C6: creating anaDuplicatePayload over dbStaff, which
already holds a row with that email, is rejected with the store
unchanged. -/
theorem create_staff_duplicate_email_rejected_witness :
    create_staff dbStaff anaDuplicatePayload =
      CreateStaffResult.error dbStaff
        { status_code := 400, detail := "Email already registered" } :=
  create_staff_duplicate_email_rejected dbStaff anaDuplicatePayload
    ⟨staffAna, by decide, rfl⟩

/-- C10: the vacation-request get-post-by-id handler examines only the
head of the stored list - it returns the first post exactly when the
requested id matches it, and signals not-found for every other id,
including ids of posts stored later in the list, because the 404 raise
sits inside the loop body. -/
theorem get_post_by_id_first_element_only (post0 : Post) (rest : List Post)
    (post_id : Nat) :
    (post_id = post0.id →
      get_post_by_id (post0 :: rest) post_id = PostLookup.found post0)
  ∧ (post_id ≠ post0.id →
      get_post_by_id (post0 :: rest) post_id = PostLookup.notFound) := by
  constructor
  · intro h
    unfold get_post_by_id
    simp [h]
  · intro h
    have hb : (post0.id == post_id) = false := by
      simpa using Ne.symm h
    unfold get_post_by_id
    simp [hb]

/-- Witness for C10: the module's initial posts list stores a post
with id 2 in second place, yet requesting id 2 yields not-found. -/
theorem get_post_by_id_first_element_only_witness :
    get_post_by_id posts 2 = PostLookup.notFound ∧ ∃ q ∈ posts, q.id = 2 := by
  constructor
  · exact (get_post_by_id_first_element_only
      { id := 1, name := "JavaScript", description := "JS is awesome" }
      [{ id := 2, name := "Python", description := "build fast APIs with Python" }] 2).2
      (by decide)
  · decide

end Hospital
